import Mathlib

/-!
Shallow embedding of the ACDSYN configuration-management module
(`src/config.py`): credential loading (`FirebaseConfig.from_env`),
tuning parameters (`MLConfig`), system parameters (`SystemConfig`),
and the singleton `ConfigManager` with its override step, `validate`
and `to_dict`.

Python floats are embedded as rationals (ℚ); the values compared here
are small decimal literals, for which the ordering comparisons agree
with IEEE-754 evaluation.  Exceptions are embedded as `Except String`.
The process environment, the filesystem and Python's `float()` parser
are gathered into an explicit `World` record, since the code only
observes them through `os.getenv`, `Path.exists`, `open`+`json.load`
and `float(...)`.
-/

/-- Outcome of opening and JSON-parsing a credential file at a given path:
either a JSON object (observed only through `.get key`, which yields `none`
for missing keys, mirroring Python `dict.get`), or a raised exception
(I/O error or malformed JSON). -/
inductive JsonOutcome where
  | obj (get : String → Option String)
  | err (msg : String)

/-- The ambient process state the module reads: environment variables
(`os.getenv`, `none` = unset), file existence (`Path.exists`), the result
of reading+parsing a JSON file (`open` + `json.load`), and Python's
`float` parser (`none` = `ValueError`). -/
structure World where
  env : String → Option String
  fileExists : String → Bool
  readJson : String → JsonOutcome
  parseFloat : String → Option ℚ

/-- Python `str.replace('\\n', '\n')` for the two-character pattern:
left-to-right, non-overlapping replacement of `\`,`n` by a newline. -/
def unescapeNewlinesAux : List Char → List Char
  | [] => []
  | [c] => [c]
  | c1 :: c2 :: rest =>
    if c1 = '\\' ∧ c2 = 'n' then '\n' :: unescapeNewlinesAux rest
    else c1 :: unescapeNewlinesAux (c2 :: rest)

/-- String wrapper for `unescapeNewlinesAux`. -/
def unescapeNewlines (s : String) : String :=
  String.mk (unescapeNewlinesAux s.data)

/-- `FirebaseConfig` (src/config.py:11-19).  Fields are `Option String`
because the JSON path fills them via `dict.get`, which can yield Python
`None`; the env-var path always yields strings (`some _`). -/
structure FirebaseConfig where
  project_id : Option String
  private_key_id : Option String
  private_key : Option String
  client_email : Option String
  client_id : Option String
  token_uri : String
deriving DecidableEq, Repr

/-- Default `token_uri` field value (src/config.py:19). -/
def defaultTokenUri : String := "https://oauth2.googleapis.com/token"

/-- The fallback branch of `FirebaseConfig.from_env` (src/config.py:42-48):
the five fields from individual environment variables, defaulting to the
empty string, with `\n` escapes in the private key replaced by newlines. -/
def FirebaseConfig.fromEnvVars (w : World) : FirebaseConfig :=
  { project_id := some ((w.env "FIREBASE_PROJECT_ID").getD "")
  , private_key_id := some ((w.env "FIREBASE_PRIVATE_KEY_ID").getD "")
  , private_key := some (unescapeNewlines ((w.env "FIREBASE_PRIVATE_KEY").getD ""))
  , client_email := some ((w.env "FIREBASE_CLIENT_EMAIL").getD "")
  , client_id := some ((w.env "FIREBASE_CLIENT_ID").getD "")
  , token_uri := defaultTokenUri }

/-- `FirebaseConfig.from_env` (src/config.py:21-51).  If the path variable
is set, nonempty (Python truthiness) and the file exists, read and parse
it; a raised exception there is caught and yields `none`.  Otherwise fall
back to the individual environment variables. -/
def FirebaseConfig.from_env (w : World) : Option FirebaseConfig :=
  match w.env "FIREBASE_SERVICE_ACCOUNT_PATH" with
  | some p =>
    if decide (p ≠ "") && w.fileExists p then
      match w.readJson p with
      | .obj get =>
        some { project_id := get "project_id"
             , private_key_id := get "private_key_id"
             , private_key := get "private_key"
             , client_email := get "client_email"
             , client_id := get "client_id"
             , token_uri := defaultTokenUri }
      | .err _ => none
    else some (FirebaseConfig.fromEnvVars w)
  | none => some (FirebaseConfig.fromEnvVars w)

/-- `MLConfig` (src/config.py:53-61). -/
structure MLConfig where
  synergy_threshold : ℚ
  min_samples_per_domain : Int
  embedding_dimension : Int
  batch_size : Int
  learning_rate : ℚ
  epochs : Int
deriving DecidableEq, Repr

/-- The default field values of `MLConfig` (src/config.py:56-61). -/
def MLConfig.defaultFields : MLConfig :=
  { synergy_threshold := mkRat 7 10
  , min_samples_per_domain := 10
  , embedding_dimension := 128
  , batch_size := 32
  , learning_rate := mkRat 1 1000
  , epochs := 100 }

/-- `MLConfig.is_valid` (src/config.py:63-70). -/
def MLConfig.is_valid (c : MLConfig) : Bool :=
  decide (0 ≤ c.synergy_threshold) && decide (c.synergy_threshold ≤ 1) &&
  decide (0 < c.min_samples_per_domain) &&
  decide (0 < c.embedding_dimension)

/-- `SystemConfig` (src/config.py:72-87), raw fields. -/
structure SystemConfig where
  execution_mode : String
  max_concurrent_tasks : Int
  heartbeat_interval : Int
  log_level : String
  log_retention_days : Int
  evolution_cycle_hours : Int
  mutation_rate : ℚ
  survival_threshold : ℚ
deriving DecidableEq, Repr

/-- The `valid_modes` list of `SystemConfig.__post_init__` (src/config.py:91). -/
def valid_modes : List String := ["adaptive", "conservative", "aggressive"]

/-- `SystemConfig.__post_init__` (src/config.py:89-96): raises `ValueError`
if the execution mode is not one of the three valid modes, or the mutation
rate lies outside `[0, 1]`. -/
def SystemConfig.post_init (c : SystemConfig) : Except String Unit :=
  if c.execution_mode ∉ valid_modes then
    .error "Invalid execution mode"
  else if ¬ (0 ≤ c.mutation_rate ∧ c.mutation_rate ≤ 1) then
    .error "Mutation rate must be between 0 and 1"
  else
    .ok ()

/-- Constructing a `SystemConfig` in Python runs `__post_init__`, so
construction with given field values either raises or returns the value. -/
def SystemConfig.mkChecked (c : SystemConfig) : Except String SystemConfig :=
  match c.post_init with
  | .ok _ => .ok c
  | .error e => .error e

/-- The default field values of `SystemConfig` (src/config.py:76-87). -/
def SystemConfig.defaultFields : SystemConfig :=
  { execution_mode := "adaptive"
  , max_concurrent_tasks := 5
  , heartbeat_interval := 60
  , log_level := "INFO"
  , log_retention_days := 30
  , evolution_cycle_hours := 24
  , mutation_rate := mkRat 1 10
  , survival_threshold := mkRat 8 10 }

/-- The attribute state of the `ConfigManager` instance (src/config.py:108-115). -/
structure ConfigManager where
  firebase : Option FirebaseConfig
  ml : MLConfig
  system : SystemConfig
deriving DecidableEq, Repr

/-- The `System overrides` block of `_load_environment_overrides`
(src/config.py:119-122): apply the execution-mode override when its value
is in `valid_modes`; invalid or unset values leave the mode unchanged. -/
def ConfigManager.applyModeOverride (w : World) (cm : ConfigManager) : ConfigManager :=
  match w.env "ACDSYN_EXECUTION_MODE" with
  | some m =>
    if m ∈ valid_modes then
      { cm with system := { cm.system with execution_mode := m } }
    else cm
  | none => cm

/-- The `ML overrides` block of `_load_environment_overrides`
(src/config.py:124-130). -/
def ConfigManager.applyThresholdOverride (w : World) (cm : ConfigManager) : ConfigManager :=
  match w.env "ACDSYN_SYNERGY_THRESHOLD" with
  | some t =>
    if t ≠ "" then
      match w.parseFloat t with
      | some v => { cm with ml := { cm.ml with synergy_threshold := v } }
      | none => cm
    else cm
  | none => cm

/-- `ConfigManager._load_environment_overrides` (src/config.py:117-130):
the mode override block followed by the threshold override block. -/
def ConfigManager.applyOverrides (w : World) (cm : ConfigManager) : ConfigManager :=
  ConfigManager.applyThresholdOverride w (ConfigManager.applyModeOverride w cm)

/-- `ConfigManager._initialize` (src/config.py:108-115): load Firebase
credentials, construct default `MLConfig` and `SystemConfig` (the latter
runs `__post_init__`, hence `Except`), then apply environment overrides. -/
def ConfigManager.initFromEnv (w : World) : Except String ConfigManager :=
  match SystemConfig.mkChecked SystemConfig.defaultFields with
  | .error e => .error e
  | .ok sys =>
    .ok (ConfigManager.applyOverrides w
      { firebase := FirebaseConfig.from_env w
      , ml := MLConfig.defaultFields
      , system := sys })

/-- The body of the `try` block in `ConfigManager.validate`
(src/config.py:134-147): the Firebase check only logs; an invalid
`MLConfig` returns `False`; `SystemConfig.__post_init__` may raise;
otherwise return `True`. -/
def ConfigManager.validateBody (cm : ConfigManager) : Except String Bool :=
  if cm.ml.is_valid = false then .ok false
  else
    match cm.system.post_init with
    | .error e => .error e
    | .ok _ => .ok true

/-- `ConfigManager.validate` (src/config.py:132-151): the `try` body with
every raised exception caught and converted to `False`. -/
def ConfigManager.validate (cm : ConfigManager) : Bool :=
  match cm.validateBody with
  | .ok b => b
  | .error _ => false

/-- The lazy-singleton step of `ConfigManager.__new__` (src/config.py:100-106)
as a transition on the class attribute `_instance : Option ConfigManager`:
if an instance exists it is returned unchanged; otherwise one is
constructed and initialized, then stored and returned.  The error branch
is unreachable because initialization never raises (proved below). -/
def ConfigManager.getInstance (w : World) (st : Option ConfigManager) :
    Option ConfigManager × Except String ConfigManager :=
  match st with
  | some cm => (some cm, .ok cm)
  | none =>
    match ConfigManager.initFromEnv w with
    | .ok cm => (some cm, .ok cm)
    | .error e => (none, .error e)

/-- The mapping produced by `ConfigManager.to_dict`.  The `firebase`
section (src/config.py:156-159) holds exactly the project id and client
email, each `None` when credentials are absent.
Modelled from the spec: the tail of `to_dict` (the `"ml"` and `"system"`
sections) is truncated in the source file mid-line (src/config.py:160-161);
per the spec those sections serialize the tuning and system parameter
fields and no credential fields beyond project id and client email. -/
structure ConfigDict where
  firebase_project_id : Option String
  firebase_client_email : Option String
  ml : MLConfig
  system : SystemConfig
deriving DecidableEq, Repr

/-- `ConfigManager.to_dict` (src/config.py:153-161), with the truncated
tail modelled from the spec as serializing the tuning and system fields. -/
def ConfigManager.to_dict (cm : ConfigManager) : ConfigDict :=
  { firebase_project_id := cm.firebase.bind (fun fb => fb.project_id)
  , firebase_client_email := cm.firebase.bind (fun fb => fb.client_email)
  , ml := cm.ml
  , system := cm.system }

/-- Replace the private key and private-key-id fields of the credentials,
when credentials are present; used to state that `to_dict` does not depend
on them. -/
def ConfigManager.withKeyFields (cm : ConfigManager)
    (pk pkid : Option String) : ConfigManager :=
  match cm.firebase with
  | none => cm
  | some fb =>
    { cm with firebase := some { fb with private_key := pk, private_key_id := pkid } }

/-- A `ConfigManager` state holding absent credentials and the default
tuning and system parameters. -/
def cmDefaults : ConfigManager :=
  { firebase := none, ml := MLConfig.defaultFields, system := SystemConfig.defaultFields }

/-- A world with every environment variable unset, no existing files, and
a `float` parser that rejects everything. -/
def worldUnset : World :=
  { env := fun _ => none
  , fileExists := fun _ => false
  , readJson := fun _ => .err "io error"
  , parseFloat := fun _ => none }

/-- A world where only `ACDSYN_SYNERGY_THRESHOLD` is set, to the string
`5.0`, which parses as the float 5 (outside `[0, 1]`). -/
def worldBigThreshold : World :=
  { env := fun s => if s = "ACDSYN_SYNERGY_THRESHOLD" then some "5.0" else none
  , fileExists := fun _ => false
  , readJson := fun _ => .err "io error"
  , parseFloat := fun s => if s = "5.0" then some 5 else none }

/-- A `ConfigManager` state whose system execution mode has been forced to
the invalid value `bogus` by direct mutation. -/
def cmBadMode : ConfigManager :=
  { firebase := none, ml := MLConfig.defaultFields
  , system := { SystemConfig.defaultFields with execution_mode := "bogus" } }

/-- C1: `ConfigManager.validate` returns `true` iff the `MLConfig`
validity predicate holds and `SystemConfig.__post_init__` succeeds
without raising; the `firebase` field (in particular its absence) has no
effect on the result. -/
theorem C1_validate_iff (cm : ConfigManager) :
    (cm.validate = true ↔
      cm.ml.is_valid = true ∧ cm.system.post_init = Except.ok ()) ∧
    (∀ fb, (ConfigManager.mk fb cm.ml cm.system).validate = cm.validate) := by
  constructor
  · unfold ConfigManager.validate ConfigManager.validateBody
    cases hml : cm.ml.is_valid with
    | false => simp
    | true =>
      simp only [Bool.true_eq_false, if_false]
      cases hsys : cm.system.post_init with
      | ok u => cases u; simp
      | error e => simp
  · intro fb
    rfl

/-- C2: constructing a `SystemConfig` (which runs `__post_init__`), and
re-invoking `__post_init__` itself, raises exactly when the execution
mode is outside the three valid modes or the mutation rate lies outside
`[0, 1]`; in particular mutation rate `3/2` raises and mutation rate
`1/2` with mode `adaptive` succeeds. -/
theorem C2_post_init_error_iff (c : SystemConfig) :
    ((∃ e, c.post_init = Except.error e) ↔
      (c.execution_mode ∉ valid_modes ∨ c.mutation_rate < 0 ∨ 1 < c.mutation_rate)) ∧
    ((∃ e, SystemConfig.mkChecked c = Except.error e) ↔
      (c.execution_mode ∉ valid_modes ∨ c.mutation_rate < 0 ∨ 1 < c.mutation_rate)) ∧
    (SystemConfig.mkChecked { SystemConfig.defaultFields with mutation_rate := mkRat 3 2 }
      = Except.error "Mutation rate must be between 0 and 1") ∧
    (SystemConfig.mkChecked
        { SystemConfig.defaultFields with mutation_rate := mkRat 1 2, execution_mode := "adaptive" }
      = Except.ok
        { SystemConfig.defaultFields with mutation_rate := mkRat 1 2, execution_mode := "adaptive" }) := by
  have hiff : (∃ e, c.post_init = Except.error e) ↔
      (c.execution_mode ∉ valid_modes ∨ c.mutation_rate < 0 ∨ 1 < c.mutation_rate) := by
    unfold SystemConfig.post_init
    by_cases h1 : c.execution_mode ∈ valid_modes
    · by_cases h2 : 0 ≤ c.mutation_rate ∧ c.mutation_rate ≤ 1
      · rw [if_neg (not_not_intro h1), if_neg (not_not_intro h2)]
        simp [h1, not_lt.mpr h2.1, not_lt.mpr h2.2]
      · rw [if_neg (not_not_intro h1), if_pos h2]
        rw [not_and_or, not_le, not_le] at h2
        exact ⟨fun _ => Or.inr h2, fun _ => ⟨_, rfl⟩⟩
    · rw [if_pos h1]
      exact ⟨fun _ => Or.inl h1, fun _ => ⟨_, rfl⟩⟩
  refine ⟨hiff, ?_, rfl, rfl⟩
  unfold SystemConfig.mkChecked
  cases hpi : c.post_init with
  | ok u => simpa [hpi] using hiff
  | error e => simpa [hpi] using hiff

/-- C3: `ConfigManager.validate` never propagates an exception: whenever
the body of its `try` block raises, the exception is caught and converted
into the boolean result `false`. -/
theorem C3_validate_catches (cm : ConfigManager) (e : String)
    (h : cm.validateBody = Except.error e) : cm.validate = false := by
  unfold ConfigManager.validate
  rw [h]

/-- C3 witness: on a state whose execution mode was mutated to `bogus`,
the validation body raises and `validate` returns `false`. -/
theorem C3_validate_catches_witness : cmBadMode.validate = false :=
  C3_validate_catches cmBadMode "Invalid execution mode" rfl

/-- C4: accessing the `ConfigManager` instance is idempotent: an access in
the initialized state returns the stored instance unchanged with no
reinitialization, and the first access constructs and initializes the
instance exactly once (initialization succeeds for every world) and
stores it, never transitioning back to the uninitialized state. -/
theorem C4_getInstance_singleton (w : World) (cm : ConfigManager) :
    ConfigManager.getInstance w (some cm) = (some cm, Except.ok cm) ∧
    ∃ cm0, ConfigManager.initFromEnv w = Except.ok cm0 ∧
      ConfigManager.getInstance w none = (some cm0, Except.ok cm0) :=
  ⟨rfl, ⟨_, rfl, rfl⟩⟩

/-- C5: `ConfigManager.to_dict` does not depend on the private key or the
private-key-id fields: replacing them by arbitrary values leaves the
output unchanged; of the credential fields only the project id and the
client email appear in the output. -/
theorem C5_to_dict_no_secrets (cm : ConfigManager) (pk pkid : Option String) :
    (cm.withKeyFields pk pkid).to_dict = cm.to_dict ∧
    (cm.to_dict).firebase_project_id = cm.firebase.bind FirebaseConfig.project_id ∧
    (cm.to_dict).firebase_client_email = cm.firebase.bind FirebaseConfig.client_email := by
  refine ⟨?_, rfl, rfl⟩
  obtain ⟨fb, ml, sys⟩ := cm
  cases fb with
  | none => rfl
  | some fb => rfl

/-- The threshold-override block never touches the system parameters. -/
theorem applyThresholdOverride_system (w : World) (cm : ConfigManager) :
    (ConfigManager.applyThresholdOverride w cm).system = cm.system := by
  unfold ConfigManager.applyThresholdOverride
  cases w.env "ACDSYN_SYNERGY_THRESHOLD" with
  | none => rfl
  | some t =>
    dsimp only
    by_cases hte : t = ""
    · rw [if_neg (not_not_intro hte)]
    · rw [if_pos hte]
      cases w.parseFloat t with
      | none => rfl
      | some v => rfl

/-- The mode-override block never touches the tuning parameters. -/
theorem applyModeOverride_ml (w : World) (cm : ConfigManager) :
    (ConfigManager.applyModeOverride w cm).ml = cm.ml := by
  unfold ConfigManager.applyModeOverride
  cases w.env "ACDSYN_EXECUTION_MODE" with
  | none => rfl
  | some m =>
    dsimp only
    by_cases hm : m ∈ valid_modes
    · rw [if_pos hm]
    · rw [if_neg hm]

/-- C6: when the credential-file variable names no existing file and all
five credential variables are unset, `FirebaseConfig.from_env` returns a
present value whose five sourced fields are all the empty string; the
absent result (`none`) occurs only when an exception is raised while
reading or parsing the credential file. -/
theorem C6_from_env_unset (w : World)
    (hpath : ∀ p, w.env "FIREBASE_SERVICE_ACCOUNT_PATH" = some p → w.fileExists p = false)
    (h1 : w.env "FIREBASE_PROJECT_ID" = none)
    (h2 : w.env "FIREBASE_PRIVATE_KEY_ID" = none)
    (h3 : w.env "FIREBASE_PRIVATE_KEY" = none)
    (h4 : w.env "FIREBASE_CLIENT_EMAIL" = none)
    (h5 : w.env "FIREBASE_CLIENT_ID" = none) :
    FirebaseConfig.from_env w = some
      { project_id := some "", private_key_id := some "", private_key := some ""
      , client_email := some "", client_id := some "", token_uri := defaultTokenUri } ∧
    (∀ w2 : World, FirebaseConfig.from_env w2 = none →
      ∃ p, w2.env "FIREBASE_SERVICE_ACCOUNT_PATH" = some p ∧ p ≠ "" ∧
        w2.fileExists p = true ∧ ∃ m, w2.readJson p = JsonOutcome.err m) := by
  constructor
  · have hfev : FirebaseConfig.fromEnvVars w =
        { project_id := some "", private_key_id := some "", private_key := some ""
        , client_email := some "", client_id := some "", token_uri := defaultTokenUri } := by
      unfold FirebaseConfig.fromEnvVars
      rw [h1, h2, h3, h4, h5]
      rfl
    unfold FirebaseConfig.from_env
    cases hp : w.env "FIREBASE_SERVICE_ACCOUNT_PATH" with
    | none => rw [hfev]
    | some p =>
      dsimp only
      rw [hpath p hp, hfev]
      simp
  · intro w2 hnone
    unfold FirebaseConfig.from_env at hnone
    cases hp : w2.env "FIREBASE_SERVICE_ACCOUNT_PATH" with
    | none => rw [hp] at hnone; exact absurd hnone (by simp)
    | some p =>
      rw [hp] at hnone
      dsimp only at hnone
      by_cases hcond : (decide (p ≠ "") && w2.fileExists p) = true
      · rw [if_pos hcond] at hnone
        rw [Bool.and_eq_true] at hcond
        cases hj : w2.readJson p with
        | obj g => rw [hj] at hnone; exact absurd hnone (by simp)
        | err m =>
          exact ⟨p, rfl, of_decide_eq_true hcond.1, hcond.2, m, hj⟩
      · rw [if_neg hcond] at hnone
        exact absurd hnone (by simp)

/-- C6 witness: in the world with every variable unset and no existing
files, `from_env` yields present credentials with empty-string fields. -/
theorem C6_from_env_unset_witness :
    FirebaseConfig.from_env worldUnset = some
      { project_id := some "", private_key_id := some "", private_key := some ""
      , client_email := some "", client_id := some "", token_uri := defaultTokenUri } :=
  (C6_from_env_unset worldUnset (fun _ _ => rfl) rfl rfl rfl rfl rfl).1

/-- C7: after the override step, the execution mode equals the override
value exactly when that value is one of the three valid modes; for any
other value, and when the variable is unset, the mode keeps its prior
value (and the override step is a total function: no exception). -/
theorem C7_mode_override (w : World) (cm : ConfigManager) :
    (ConfigManager.applyOverrides w cm).system.execution_mode =
      (match w.env "ACDSYN_EXECUTION_MODE" with
       | some m => if m ∈ valid_modes then m else cm.system.execution_mode
       | none => cm.system.execution_mode) := by
  unfold ConfigManager.applyOverrides
  rw [applyThresholdOverride_system]
  unfold ConfigManager.applyModeOverride
  cases w.env "ACDSYN_EXECUTION_MODE" with
  | none => rfl
  | some m =>
    dsimp only
    by_cases hm : m ∈ valid_modes
    · rw [if_pos hm, if_pos hm]
    · rw [if_neg hm, if_neg hm]

/-- C8: after the override step, the synergy threshold equals the parsed
override value exactly when the override variable is set to a nonempty
string that parses as a float; any set value that does not parse (or the
empty/unset value) leaves the threshold at its prior value, with no
exception propagated (the override step is a total function). -/
theorem C8_threshold_override (w : World) (cm : ConfigManager) :
    (ConfigManager.applyOverrides w cm).ml.synergy_threshold =
      (match w.env "ACDSYN_SYNERGY_THRESHOLD" with
       | some t =>
         if t ≠ "" then
           match w.parseFloat t with
           | some v => v
           | none => cm.ml.synergy_threshold
         else cm.ml.synergy_threshold
       | none => cm.ml.synergy_threshold) := by
  unfold ConfigManager.applyOverrides ConfigManager.applyThresholdOverride
  cases w.env "ACDSYN_SYNERGY_THRESHOLD" with
  | none => rw [applyModeOverride_ml]
  | some t =>
    dsimp only
    by_cases hte : t = ""
    · rw [if_neg (not_not_intro hte), if_neg (not_not_intro hte), applyModeOverride_ml]
    · rw [if_pos hte, if_pos hte]
      cases w.parseFloat t with
      | some v => rw [applyModeOverride_ml]
      | none => rw [applyModeOverride_ml]

/-- C9: the threshold override performs no range check: any parsed float,
including one outside `[0, 1]`, is written into the tuning parameters,
after which the tuning validity predicate is false and `validate` returns
`false`. -/
theorem C9_threshold_no_range_check (w : World) (cm : ConfigManager) (t : String) (v : ℚ)
    (henv : w.env "ACDSYN_SYNERGY_THRESHOLD" = some t)
    (hne : t ≠ "")
    (hparse : w.parseFloat t = some v)
    (hout : v < 0 ∨ 1 < v) :
    (ConfigManager.applyOverrides w cm).ml.synergy_threshold = v ∧
    (ConfigManager.applyOverrides w cm).ml.is_valid = false ∧
    (ConfigManager.applyOverrides w cm).validate = false := by
  have hth : (ConfigManager.applyOverrides w cm).ml.synergy_threshold = v := by
    unfold ConfigManager.applyOverrides ConfigManager.applyThresholdOverride
    rw [henv]
    dsimp only
    rw [if_pos hne, hparse]
  have hvalid : (ConfigManager.applyOverrides w cm).ml.is_valid = false := by
    unfold MLConfig.is_valid
    rw [hth]
    cases hout with
    | inl h => simp [decide_eq_false (not_le.mpr h)]
    | inr h => simp [decide_eq_false (not_le.mpr h)]
  refine ⟨hth, hvalid, ?_⟩
  unfold ConfigManager.validate ConfigManager.validateBody
  rw [hvalid]
  simp

/-- C9 witness: with `ACDSYN_SYNERGY_THRESHOLD=5.0` the override is
applied, making the tuning parameters invalid and `validate` false. -/
theorem C9_threshold_no_range_check_witness :
    (ConfigManager.applyOverrides worldBigThreshold cmDefaults).ml.synergy_threshold = 5 ∧
    (ConfigManager.applyOverrides worldBigThreshold cmDefaults).ml.is_valid = false ∧
    (ConfigManager.applyOverrides worldBigThreshold cmDefaults).validate = false :=
  C9_threshold_no_range_check worldBigThreshold cmDefaults "5.0" 5 rfl (by decide)
    rfl (Or.inr (by norm_num))

/-- C10: first-time construction and initialization of the
`ConfigManager` never raises, for every environment and credential-file
content: it always returns the override-adjusted state built from the
loaded credentials and the default tuning and system parameters. -/
theorem C10_init_never_raises (w : World) :
    ConfigManager.initFromEnv w = Except.ok
      (ConfigManager.applyOverrides w
        { firebase := FirebaseConfig.from_env w
        , ml := MLConfig.defaultFields
        , system := SystemConfig.defaultFields }) := rfl
